import Mathlib

/-!
# Verification of the AI-Overlay suggestion orchestrator

A shallow embedding, in Lean 4, of the parts of the `AI-Overlay` repository
that the specification's testable properties talk about:

* `src/ai_engine.py` — the suggestion orchestrator (`AIEngine`): prompt/call
  pipeline, response parsing and formatting, the rate-limiter timestamp, the
  suggestion cache helpers, and the `is_initialized` short-circuit;
* `src/screen_monitor.py` — the context store discipline of
  `ScreenMonitor._capture_and_analyze` / `get_current_context`;
* `src/.history/main_20250727223139.py` — the activation state machine of
  `RealTimeCopilot` (`_activate_copilot`, `_deactivate_copilot`,
  `_toggle_overlay`, `_show_suggestions`, `_show_welcome_overlay`).

Python dictionaries, lists, strings, numbers, booleans and `None` are
modelled by the inductive type `PyVal`; a dict is an association list whose
lookup returns the first binding (Python dicts cannot hold duplicate keys,
so the dicts we build have `Nodup` key lists).  Wall-clock readings
(`time.time()`) and the outcome of external effects (the OpenAI call,
`json.loads`, OCR) are passed in explicitly as oracle parameters, so every
definition is executable and the control flow of the Python source is kept
verbatim.
-/

/-- A Python/JSON value: strings, rationals (covering Python ints and the
float literals `0.5`, `1.0` appearing in the source), booleans, `None`,
lists and dicts. -/
inductive PyVal : Type where
  | str (s : String)
  | num (q : ℚ)
  | bool (b : Bool)
  | none
  | list (xs : List PyVal)
  | dict (fields : List (String × PyVal))

/-- A Python dict, as an association list (first binding wins on lookup). -/
abbrev PyDict := List (String × PyVal)

namespace PyDict

/-- `d[k]` lookup: first binding for `k`, if any (Python `dict.__getitem__`,
made total with `Option`). -/
def get? (d : PyDict) (k : String) : Option PyVal :=
  match d with
  | [] => Option.none
  | (k', v) :: rest => if k' = k then some v else get? rest k

/-- Python `d.get(k, default)`. -/
def getD (d : PyDict) (k : String) (v₀ : PyVal) : PyVal :=
  (d.get? k).getD v₀

/-- Python `k in d`. -/
def hasKey (d : PyDict) (k : String) : Bool :=
  (d.get? k).isSome

/-- Python `d[k] = v`: replace the binding in place if the key exists,
otherwise append a new binding (insertion order is preserved, as in
CPython). -/
def set (d : PyDict) (k : String) (v : PyVal) : PyDict :=
  if d.hasKey k then d.map (fun p => if p.1 = k then (k, v) else p)
  else d ++ [(k, v)]

/-- Python `d.update(e)`: fold the bindings of `e` into `d` left to right. -/
def update (d : PyDict) : PyDict → PyDict
  | [] => d
  | (k, v) :: rest => (d.set k v).update rest

theorem get?_map_ne (d : PyDict) (k k' : String) (v : PyVal) (h : k ≠ k') :
    get? (d.map (fun p => if p.1 = k then (k, v) else p)) k' = get? d k' := by
  induction d with
  | nil => rfl
  | cons p rest ih =>
    obtain ⟨pk, pv⟩ := p
    simp only [List.map_cons]
    by_cases hpk : pk = k
    · rw [if_pos (show (pk, pv).1 = k from hpk)]
      have hpk' : ¬ (pk = k') := by rw [hpk]; exact h
      show get? ((k, v) :: _) k' = get? ((pk, pv) :: rest) k'
      simp only [get?, if_neg h, if_neg hpk']
      exact ih
    · rw [if_neg (show ¬ (pk, pv).1 = k from hpk)]
      show get? ((pk, pv) :: _) k' = get? ((pk, pv) :: rest) k'
      simp only [get?]
      by_cases hk' : pk = k'
      · simp [hk']
      · simp only [if_neg hk']
        exact ih

theorem get?_map_eq (d : PyDict) (k : String) (v : PyVal) (h : hasKey d k = true) :
    get? (d.map (fun p => if p.1 = k then (k, v) else p)) k = some v := by
  induction d with
  | nil => simp [hasKey, get?] at h
  | cons p rest ih =>
    obtain ⟨pk, pv⟩ := p
    simp only [List.map_cons]
    by_cases hpk : pk = k
    · rw [if_pos (show (pk, pv).1 = k from hpk)]
      show get? ((k, v) :: _) k = some v
      simp [get?]
    · rw [if_neg (show ¬ (pk, pv).1 = k from hpk)]
      show get? ((pk, pv) :: _) k = some v
      simp only [get?, if_neg hpk]
      apply ih
      simpa [hasKey, get?, hpk] using h

theorem get?_append_single (d : PyDict) (k k' : String) (v : PyVal) :
    get? (d ++ [(k, v)]) k' =
      match get? d k' with
      | some w => some w
      | Option.none => if k = k' then some v else Option.none := by
  induction d with
  | nil => rfl
  | cons p rest ih =>
    obtain ⟨pk, pv⟩ := p
    by_cases hk' : pk = k'
    · simp [get?, hk']
    · simp [get?, hk', ih]

theorem get?_eq_none_of_not_hasKey (d : PyDict) (k : String) (h : hasKey d k = false) :
    get? d k = Option.none := by
  unfold hasKey at h
  exact Option.not_isSome_iff_eq_none.mp (by simp [h])

theorem get?_set (d : PyDict) (k k' : String) (v : PyVal) :
    get? (set d k v) k' = if k = k' then some v else get? d k' := by
  unfold set
  by_cases hmem : hasKey d k
  · simp only [hmem, if_true]
    by_cases hk : k = k'
    · subst hk; simp [get?_map_eq d k v hmem]
    · simp [hk, get?_map_ne d k k' v hk]
  · simp only [Bool.not_eq_true] at hmem
    simp only [hmem, Bool.false_eq_true, if_false]
    rw [get?_append_single]
    by_cases hk : k = k'
    · subst hk
      simp [get?_eq_none_of_not_hasKey d k hmem]
    · simp only [if_neg hk]
      cases get? d k' <;> simp

theorem get?_eq_none_of_not_mem (e : PyDict) (k : String)
    (h : k ∉ e.map Prod.fst) : get? e k = Option.none := by
  induction e with
  | nil => rfl
  | cons q qs ihq =>
    obtain ⟨qk, qv⟩ := q
    simp only [List.map_cons, List.mem_cons] at h
    have hq : ¬ (qk = k) := by
      intro hh; exact h (Or.inl hh.symm)
    simp only [get?, if_neg hq]
    exact ihq (fun hh => h (Or.inr hh))

theorem get?_update (d : PyDict) (e : PyDict) (k : String)
    (he : (e.map Prod.fst).Nodup) :
    get? (update d e) k =
      match get? e k with
      | some w => some w
      | Option.none => get? d k := by
  induction e generalizing d with
  | nil => rfl
  | cons p rest ih =>
    obtain ⟨pk, pv⟩ := p
    simp only [List.map_cons, List.nodup_cons] at he
    obtain ⟨hpk, hrest⟩ := he
    show get? (update (set d pk pv) rest) k = _
    rw [ih _ hrest, get?_set]
    by_cases hk : pk = k
    · subst hk
      simp [get?, get?_eq_none_of_not_mem rest pk hpk]
    · simp [get?, hk, fun hh : k = pk => hk hh.symm]

end PyDict

namespace AIEngine

/-- `Config.ENABLE_CACHING` (config, line 97). -/
def ENABLE_CACHING : Bool := true

/-- `Config.CACHE_TTL = 300` seconds (config, line 98). -/
def CACHE_TTL : ℚ := 300

/-- `self.rate_limit_delay = 1.0` seconds (ai_engine.py, line 20). -/
def rate_limit_delay : ℚ := 1

/-- One cache slot: the dict `{"timestamp": ..., "suggestion": ...}` stored
by `cache_suggestion`. -/
structure CacheEntry where
  timestamp : ℚ
  suggestion : PyVal

/-- The mutable fields of `AIEngine` that the orchestrator operations touch:
`is_initialized`, `suggestion_cache`, `last_request_time`. -/
structure EngineState where
  is_initialized : Bool
  suggestion_cache : List (String × CacheEntry)
  last_request_time : ℚ

/-- The provider's textual response together with the outcome of
`json.loads` on it (an oracle standing for the external JSON library;
`Except.error` carries the `JSONDecodeError` message `str(e)`). -/
structure ProviderText where
  text : String
  loads : Except String PyVal

/-- Combined outcome of the pre-parse phase of `generate_suggestions`'s
`try:` block: `_build_prompt` raising, `_call_openai` raising (any provider
failure, re-raised at line 151), or the provider returning text. -/
inductive CallPhase where
  | promptError (msg : String)
  | providerError (msg : String)
  | response (r : ProviderText)

/-- Outcome of `_call_openai` for the three plain-JSON operations, whose
prompt building is pure string interpolation and cannot raise. -/
inductive ProviderCall where
  | exn (msg : String)
  | ok (r : ProviderText)

/-- The `{"error": msg}` dict every `except` handler returns. -/
def errorDict (msg : String) : PyVal := .dict [("error", .str msg)]

/-- Python iteration (`for suggestion in ...`) as used by
`_format_suggestions`: lists yield their elements, dicts their keys,
strings their characters; any other value raises `TypeError`. -/
def pyIter : PyVal → Except String (List PyVal)
  | .list xs => .ok xs
  | .dict fs => .ok (fs.map (fun p => PyVal.str p.1))
  | .str s => .ok (s.data.map (fun c => PyVal.str (String.mk [c])))
  | _ => .error "TypeError: object is not iterable"

/-- Loop body of `AIEngine._format_suggestions` (ai_engine.py 184-193):
keep a candidate iff it is a dict whose keys include "title"
(`isinstance(suggestion, dict) and "title" in suggestion`), filling the
source's defaults for the remaining fields. -/
def validate_one : PyVal → Option PyVal
  | .dict sd =>
      if PyDict.hasKey sd "title" then
        some (.dict
          [("type", PyDict.getD sd "type" (.str "general")),
           ("title", PyDict.getD sd "title" (.str "")),
           ("description", PyDict.getD sd "description" (.str "")),
           ("code", PyDict.getD sd "code" (.str "")),
           ("priority", PyDict.getD sd "priority" (.str "medium"))])
      else Option.none
  | _ => Option.none

/-- `AIEngine._format_suggestions` (ai_engine.py 171-196). `tNow` is the
`time.time()` reading at line 174. Exceptions escaping the Python body
(`AttributeError` when `parsed` is not a dict, `TypeError` when the
"suggestions" value is not iterable) surface as `Except.error` and are
caught by `_parse_response`'s generic handler. -/
def format_suggestions (tNow : ℚ) (parsed : PyVal) (context : PyVal) :
    Except String PyVal :=
  match parsed with
  | .dict p =>
      match pyIter (PyDict.getD p "suggestions" (.list [])) with
      | .error e => .error e
      | .ok items =>
          .ok (.dict
            [("timestamp", .num tNow),
             ("context", context),
             ("suggestions", .list (items.filterMap validate_one)),
             ("summary", PyDict.getD p "summary" (.str "")),
             ("confidence", PyDict.getD p "confidence" (.num (1/2))),
             ("source", .str "ai_engine")])
  | _ => .error "AttributeError: no attribute get"

/-- `AIEngine._format_text_response` (ai_engine.py 198-215): a single
`general` suggestion whose description is the raw response; the summary is
the response truncated to 200 characters plus an ellipsis when longer. -/
def format_text_response (tNow : ℚ) (response : String) (context : PyVal) :
    PyVal :=
  .dict
    [("timestamp", .num tNow),
     ("context", context),
     ("suggestions", .list
       [.dict [("type", .str "general"), ("title", .str "AI Suggestion"),
               ("description", .str response), ("code", .str ""),
               ("priority", .str "medium")]]),
     ("summary", .str (if response.data.length > 200
                       then String.mk (response.data.take 200) ++ "..."
                       else response)),
     ("confidence", .num (1/2)),
     ("source", .str "ai_engine")]

/-- Python `response.strip().startswith("\x7b")` (ai_engine.py line 157):
after stripping whitespace, is the first character an opening brace?
(Stripping the tail cannot affect a head check, so only the leading strip
appears.)  Defined on the character list so it evaluates by `decide`. -/
def strippedStartsWithBrace (s : String) : Bool :=
  match s.data.dropWhile Char.isWhitespace with
  | [] => false
  | c :: _ => c = '{'

/-- `AIEngine._parse_response` (ai_engine.py 153-169): structured parse is
attempted only when the stripped response starts with an opening brace; a
`JSONDecodeError` falls back to the text formatting, and any other
exception from formatting yields the "Failed to parse AI response" error
dict without raising. -/
def parse_response (tNow : ℚ) (resp : ProviderText) (context : PyVal) :
    PyVal :=
  if strippedStartsWithBrace resp.text then
    match resp.loads with
    | .error _ => format_text_response tNow resp.text context
    | .ok parsed =>
        match format_suggestions tNow parsed context with
        | .ok v => v
        | .error _ => errorDict "Failed to parse AI response"
  else
    format_text_response tNow resp.text context

/-- Result of one orchestrator operation: the returned dict, the post-call
engine state, and the time at which `_call_openai` was entered
(`Option.none` when the provider was never invoked). -/
structure GenOutcome where
  ret : PyVal
  state : EngineState
  invocationTime : Option ℚ

/-- `AIEngine.generate_suggestions` (ai_engine.py 38-63). `context`,
`command` and `query` are the source's parameters; `command` and `query`
only enter the composed prompt, whose provider round-trip is summarized by
the `call` oracle. `t0` is the `time.time()` reading at line 45; when
control reaches the provider it is invoked at
`max t0 (last_request_time + rate_limit_delay)`, because the sleep at line
47 runs exactly when `t0 - last < delay` and lasts `delay - (t0 - last)`.
`tParse` is the `time.time()` reading inside the formatting helper and
`tEnd` the one at line 58; only a completed provider round-trip reaches
line 58 and overwrites `last_request_time`. The suggestion cache is not
read or written on any path. -/
def generate_suggestions (st : EngineState) (context : PyVal)
    (command query : Option String) (t0 : ℚ) (call : CallPhase)
    (tParse tEnd : ℚ) : GenOutcome :=
  if !st.is_initialized then
    ⟨errorDict "AI Engine not initialized", st, Option.none⟩
  else
    let tInv := max t0 (st.last_request_time + rate_limit_delay)
    match call with
    | .promptError msg => ⟨errorDict msg, st, Option.none⟩
    | .providerError msg => ⟨errorDict msg, st, some tInv⟩
    | .response r =>
        ⟨parse_response tParse r context,
         { st with last_request_time := tEnd }, some tInv⟩

/-- Shared body of `suggest_fixes`, `analyze_code_quality` and
`generate_documentation`: build a prompt by pure string interpolation, call
`_call_openai` immediately (no rate-limit check), return
`json.loads(response)`; any exception — provider failure or
`JSONDecodeError` — is caught and returned as `{"error": str(e)}`.
`last_request_time` and the cache are never touched. -/
def json_pipeline (st : EngineState) (t0 : ℚ) (call : ProviderCall) :
    GenOutcome :=
  if !st.is_initialized then
    ⟨errorDict "AI Engine not initialized", st, Option.none⟩
  else
    match call with
    | .exn msg => ⟨errorDict msg, st, some t0⟩
    | .ok r =>
        match r.loads with
        | .ok v => ⟨v, st, some t0⟩
        | .error e => ⟨errorDict e, st, some t0⟩

/-- `AIEngine.suggest_fixes` (ai_engine.py 250-281). -/
def suggest_fixes (st : EngineState) (t0 : ℚ) (call : ProviderCall) :
    GenOutcome :=
  json_pipeline st t0 call

/-- `AIEngine.analyze_code_quality` (ai_engine.py 217-248). -/
def analyze_code_quality (st : EngineState) (t0 : ℚ) (call : ProviderCall) :
    GenOutcome :=
  json_pipeline st t0 call

/-- `AIEngine.generate_documentation` (ai_engine.py 283-309). -/
def generate_documentation (st : EngineState) (t0 : ℚ) (call : ProviderCall) :
    GenOutcome :=
  json_pipeline st t0 call

/-- `AIEngine.get_cached_suggestion` (ai_engine.py 311-317). -/
def get_cached_suggestion (cache : List (String × CacheEntry)) (tNow : ℚ)
    (context_hash : String) : Option PyVal :=
  if ENABLE_CACHING then
    match cache.lookup context_hash with
    | some cached =>
        if tNow - cached.timestamp < CACHE_TTL then some cached.suggestion
        else Option.none
    | Option.none => Option.none
  else Option.none

/-- `AIEngine.cache_suggestion` (ai_engine.py 319-325):
`self.suggestion_cache[context_hash] = {"timestamp": ..., "suggestion": ...}`
when caching is enabled. -/
def cache_suggestion (cache : List (String × CacheEntry)) (tNow : ℚ)
    (context_hash : String) (suggestion : PyVal) :
    List (String × CacheEntry) :=
  if ENABLE_CACHING then
    if (cache.lookup context_hash).isSome then
      cache.map (fun p =>
        if p.1 = context_hash then (context_hash, ⟨tNow, suggestion⟩) else p)
    else cache ++ [(context_hash, ⟨tNow, suggestion⟩)]
  else cache

end AIEngine

/-- Python truthiness (`if x:`): empty strings/lists/dicts, `0`, `False`
and `None` are falsy. -/
def pyTruthy : PyVal → Bool
  | .str s => !s.data.isEmpty
  | .num q => decide (q ≠ 0)
  | .bool b => b
  | .none => false
  | .list xs => !xs.isEmpty
  | .dict fs => !fs.isEmpty

namespace ScreenMonitor

/-- The dict `_detect_code_patterns` (screen_monitor.py 136-178) returns: it
is always built with exactly these four keys (`code_detected`, `file_type`,
`language`, `code_snippets`), whatever the pattern matching concludes. The
regex classification itself is an external-text analysis and enters the
model as this record. -/
structure CodeAnalysis where
  code_detected : Bool
  file_type : PyVal
  language : PyVal
  code_snippets : List PyVal

/-- The dict literal `_detect_code_patterns` assembles. -/
def CodeAnalysis.toDict (a : CodeAnalysis) : PyDict :=
  [("code_detected", .bool a.code_detected),
   ("file_type", a.file_type),
   ("language", a.language),
   ("code_snippets", .list a.code_snippets)]

/-- Outcome of the `try:` body of `_analyze_screen_content`: either some
step raised before the OCR results were recorded (the base analysis is
returned unchanged, screen_monitor.py 131-132), or OCR produced a text and
the derived code/error/context analyses. -/
inductive OcrOutcome where
  | failed
  | ok (text : String) (code : CodeAnalysis)
      (error_indicators : List String) (suggestions_context : String)

/-- `ScreenMonitor._analyze_screen_content` (screen_monitor.py 100-134): a
base analysis dict is built first; only when `Config.OCR_ENABLED` and the
`try:` body completes are `text_content` assigned, the code analysis merged
in with `analysis.update(code_analysis)`, and the error indicators and
suggestions context assigned. -/
def analyze_screen_content (ocr_enabled : Bool) (tNow : ℚ)
    (out : OcrOutcome) : PyDict :=
  let base : PyDict :=
    [("timestamp", .num tNow), ("text_content", .str ""),
     ("code_detected", .bool false), ("file_type", PyVal.none),
     ("error_indicators", .list []), ("suggestions_context", .str "")]
  if ocr_enabled then
    match out with
    | .failed => base
    | .ok text code errs sctx =>
        PyDict.set
          (PyDict.set
            (PyDict.update (PyDict.set base "text_content" (.str text))
              code.toDict)
            "error_indicators" (.list (errs.map PyVal.str)))
          "suggestions_context" (.str sctx)
  else base

/-- `ScreenMonitor._capture_and_analyze` (screen_monitor.py 67-82): when a
screenshot is captured, the new analysis is written with
`self.current_context.update(analysis)` — a dict merge, not a replacement;
when `_capture_screen` returns `None` the context is left untouched. -/
def capture_and_analyze (current_context : PyDict) (screenshot : Option Unit)
    (analysis : PyDict) : PyDict :=
  match screenshot with
  | Option.none => current_context
  | some _ => PyDict.update current_context analysis

/-- `ScreenMonitor.get_current_context` (screen_monitor.py 216-218):
`self.current_context.copy()`, a value-identical copy. -/
def get_current_context (current_context : PyDict) : PyDict :=
  current_context

end ScreenMonitor

namespace Copilot

/-- The fields of `RealTimeCopilot` and `OverlayUI` that the activation
events read or write: `is_active` and `last_suggestions` (main), and the
overlay's `is_visible` flag (`create_overlay` sets it true, `hide_overlay`
false, overlay_ui). -/
structure CopState where
  is_active : Bool
  last_suggestions : List PyVal
  overlay_visible : Bool

/-- `RealTimeCopilot._show_suggestions` (main, 312-324): bails out when
inactive; otherwise reads `suggestions.get("suggestions", [])` and calls
`create_overlay` only when that list is truthy. The second component counts
`create_overlay` calls (the "display" the spec talks about). -/
def show_suggestions (s : CopState) (suggestions : PyDict) : CopState × Nat :=
  if !s.is_active then (s, 0)
  else
    let suggestion_list := PyDict.getD suggestions "suggestions" (.list [])
    if pyTruthy suggestion_list then ({ s with overlay_visible := true }, 1)
    else (s, 0)

/-- The two welcome suggestions of `_show_welcome_overlay` (main, 350-365). -/
def welcome_suggestions : List PyVal :=
  [.dict [("type", .str "general"),
          ("title", .str "Welcome to AI Copilot! 🤖"),
          ("description", .str "I\x27m here to help you with your coding. Say \x27Hey Copilot\x27 or use keyboard shortcuts to get started."),
          ("code", .str ""), ("priority", .str "low")],
   .dict [("type", .str "best_practice"),
          ("title", .str "Available Commands"),
          ("description", .str "Try saying: explain, fix, optimize, document, test, refactor, or debug"),
          ("code", .str ""), ("priority", .str "low")]]

/-- `RealTimeCopilot._show_welcome_overlay` (main, 347-370): calls
`create_overlay(welcome_suggestions)` unconditionally. -/
def show_welcome_overlay (s : CopState) : CopState × Nat :=
  ({ s with overlay_visible := true }, 1)

/-- `RealTimeCopilot._activate_copilot` (main, 271-285): a no-op when
already active; otherwise sets `is_active` and shows the last-known
suggestions, or the welcome overlay when there are none. -/
def activate_copilot (s : CopState) : CopState × Nat :=
  if !s.is_active then
    let s1 : CopState := { s with is_active := true }
    if pyTruthy (.list s1.last_suggestions) then
      show_suggestions s1 [("suggestions", .list s1.last_suggestions)]
    else
      show_welcome_overlay s1
  else (s, 0)

/-- `RealTimeCopilot._on_hotword_detected` (main, 244-251): delegates to
`_activate_copilot`; the `activate_copilot` hotkey callback (main, 114) is
bound to the same method. -/
def on_hotword_detected (s : CopState) : CopState × Nat :=
  activate_copilot s

/-- `RealTimeCopilot._deactivate_copilot` (main, 287-299): when active,
clears `is_active` and hides the overlay; otherwise a no-op. -/
def deactivate_copilot (s : CopState) : CopState :=
  if s.is_active then { s with is_active := false, overlay_visible := false }
  else s

/-- `RealTimeCopilot._toggle_overlay` (main, 301-310): hides when visible,
otherwise routes the last suggestions through `_show_suggestions` (which
shows nothing when inactive or when the list is empty). -/
def toggle_overlay (s : CopState) : CopState × Nat :=
  if s.overlay_visible then ({ s with overlay_visible := false }, 0)
  else show_suggestions s [("suggestions", .list s.last_suggestions)]

end Copilot

/-- C5 (confirmed): if initialization failed, every public orchestrator
operation — `generate_suggestions`, `suggest_fixes`, `analyze_code_quality`,
`generate_documentation` — immediately returns the "AI Engine not
initialized" error dict: the engine state is untouched and the provider is
never invoked, so no network I/O is attempted. -/
theorem uninitialized_short_circuits_every_operation
    (st : AIEngine.EngineState) (h : st.is_initialized = false) :
    (∀ ctx cmd qry t0 call tParse tEnd,
      AIEngine.generate_suggestions st ctx cmd qry t0 call tParse tEnd =
        ⟨AIEngine.errorDict "AI Engine not initialized", st, Option.none⟩) ∧
    (∀ t0 call, AIEngine.suggest_fixes st t0 call =
        ⟨AIEngine.errorDict "AI Engine not initialized", st, Option.none⟩) ∧
    (∀ t0 call, AIEngine.analyze_code_quality st t0 call =
        ⟨AIEngine.errorDict "AI Engine not initialized", st, Option.none⟩) ∧
    (∀ t0 call, AIEngine.generate_documentation st t0 call =
        ⟨AIEngine.errorDict "AI Engine not initialized", st, Option.none⟩) := by
  refine ⟨fun ctx cmd qry t0 call tParse tEnd => ?_, fun t0 call => ?_,
    fun t0 call => ?_, fun t0 call => ?_⟩ <;>
    simp [AIEngine.generate_suggestions, AIEngine.suggest_fixes,
      AIEngine.analyze_code_quality, AIEngine.generate_documentation,
      AIEngine.json_pipeline, h]

/-- Witness for `uninitialized_short_circuits_every_operation` at a concrete
uninitialized engine state. -/
theorem uninitialized_short_circuits_every_operation_witness :
    AIEngine.generate_suggestions ⟨false, [], 0⟩ PyVal.none Option.none
        Option.none 3 (.providerError "err") 4 5 =
      ⟨AIEngine.errorDict "AI Engine not initialized", ⟨false, [], 0⟩,
        Option.none⟩ :=
  (uninitialized_short_circuits_every_operation ⟨false, [], 0⟩ rfl).1
    PyVal.none Option.none Option.none 3 (.providerError "err") 4 5

/-- C7 (confirmed): for a provider response that is not structured output —
its stripped text does not start with an opening brace, or `json.loads`
raises — `generate_suggestions` returns a batch with exactly one suggestion
of type `general` whose description equals the raw response text; the
summary is the text truncated to 200 characters plus an ellipsis when
longer, while the description keeps the full text. -/
theorem fallback_single_general_suggestion
    (st : AIEngine.EngineState) (ctx : PyVal) (cmd qry : Option String)
    (t0 tParse tEnd : ℚ) (r : AIEngine.ProviderText)
    (hinit : st.is_initialized = true)
    (h : AIEngine.strippedStartsWithBrace r.text = false ∨
         ∃ e, r.loads = Except.error e) :
    (AIEngine.generate_suggestions st ctx cmd qry t0 (.response r)
        tParse tEnd).ret =
      PyVal.dict
        [("timestamp", .num tParse), ("context", ctx),
         ("suggestions", .list
           [.dict [("type", .str "general"), ("title", .str "AI Suggestion"),
                   ("description", .str r.text), ("code", .str ""),
                   ("priority", .str "medium")]]),
         ("summary", .str (if r.text.data.length > 200
                           then String.mk (r.text.data.take 200) ++ "..."
                           else r.text)),
         ("confidence", .num (1/2)),
         ("source", .str "ai_engine")] := by
  simp only [AIEngine.generate_suggestions, hinit, Bool.not_true,
    Bool.false_eq_true, if_false]
  rcases h with h | ⟨e, he⟩
  · simp [AIEngine.parse_response, h, AIEngine.format_text_response]
  · cases hb : AIEngine.strippedStartsWithBrace r.text
    · simp [AIEngine.parse_response, hb, AIEngine.format_text_response]
    · simp [AIEngine.parse_response, hb, he, AIEngine.format_text_response]

/-- Witness for `fallback_single_general_suggestion`: the spec's own
example text, with `json.loads` failing. -/
theorem fallback_single_general_suggestion_witness :
    (AIEngine.generate_suggestions ⟨true, [], 0⟩ (PyVal.dict []) Option.none
        Option.none 5 (.response ⟨"Use a colon after if statements",
          Except.error "Expecting value: line 1 column 1 (char 0)"⟩)
        6 7).ret =
      PyVal.dict
        [("timestamp", .num 6), ("context", PyVal.dict []),
         ("suggestions", .list
           [.dict [("type", .str "general"), ("title", .str "AI Suggestion"),
                   ("description", .str "Use a colon after if statements"),
                   ("code", .str ""), ("priority", .str "medium")]]),
         ("summary", .str "Use a colon after if statements"),
         ("confidence", .num (1/2)),
         ("source", .str "ai_engine")] := by
  have h := fallback_single_general_suggestion ⟨true, [], 0⟩ (PyVal.dict [])
    Option.none Option.none 5 6 7
    ⟨"Use a colon after if statements",
     Except.error "Expecting value: line 1 column 1 (char 0)"⟩
    rfl (Or.inl (by decide))
  rw [h]
  rfl

/-- C8 (confirmed): from an inactive state, applying `HotwordDetected`
(equivalently the activate hotkey — both are bound to `_activate_copilot`)
twice in a row yields exactly one transition to active and exactly one
`create_overlay` display (last-known suggestions, or the welcome batch when
none exist); the second application changes nothing and displays nothing. -/
theorem hotword_activation_idempotent (s : Copilot.CopState)
    (h : s.is_active = false) :
    (Copilot.on_hotword_detected s).1.is_active = true ∧
    (Copilot.on_hotword_detected s).2 = 1 ∧
    Copilot.on_hotword_detected (Copilot.on_hotword_detected s).1 =
      ((Copilot.on_hotword_detected s).1, 0) := by
  obtain ⟨a, ls, v⟩ := s
  cases h
  cases ls with
  | nil => exact ⟨rfl, rfl, rfl⟩
  | cons x xs => exact ⟨rfl, rfl, rfl⟩

/-- Witness for `hotword_activation_idempotent` at the initial state
(inactive, no suggestions, hidden). -/
theorem hotword_activation_idempotent_witness :
    (Copilot.on_hotword_detected ⟨false, [], false⟩).1.is_active = true ∧
    (Copilot.on_hotword_detected ⟨false, [], false⟩).2 = 1 ∧
    Copilot.on_hotword_detected
        (Copilot.on_hotword_detected ⟨false, [], false⟩).1 =
      ((Copilot.on_hotword_detected ⟨false, [], false⟩).1, 0) :=
  hotword_activation_idempotent ⟨false, [], false⟩ rfl

/-- C1 counterexample: with caching enabled and two initialized
`generate_suggestions` calls on the same context and the same
(command, query) pair only 10 seconds apart — well within the 300-second
TTL — the provider is invoked by BOTH calls: the second call is not
answered from the cache, so the sequence causes two provider invocations,
not one. -/
theorem generate_twice_within_ttl_invokes_provider_twice :
    (AIEngine.generate_suggestions ⟨true, [], 0⟩ (PyVal.dict []) Option.none
        Option.none 10 (.response ⟨"hello", Except.error "e"⟩) 10
        10).invocationTime = some 10 ∧
    (AIEngine.generate_suggestions
        (AIEngine.generate_suggestions ⟨true, [], 0⟩ (PyVal.dict [])
          Option.none Option.none 10 (.response ⟨"hello", Except.error "e"⟩)
          10 10).state
        (PyVal.dict []) Option.none Option.none 20
        (.response ⟨"hello", Except.error "e"⟩) 20 20).invocationTime =
      some 20 ∧
    AIEngine.ENABLE_CACHING = true ∧ (20 : ℚ) - 10 < AIEngine.CACHE_TTL := by
  refine ⟨?_, ?_, rfl, by norm_num [AIEngine.CACHE_TTL]⟩ <;>
    norm_num [AIEngine.generate_suggestions, AIEngine.rate_limit_delay,
      max_def]

/-- C1 (amended): `generate_suggestions` performs a provider invocation on
every initialized call whose prompt/call phase reaches `_call_openai`,
whatever the cache holds, and never modifies the suggestion cache; the TTL
lookup lives only in the separate helper `get_cached_suggestion`, which
does return the stored batch — with no provider involvement — when queried
within the TTL. -/
theorem generate_bypasses_cache
    (st : AIEngine.EngineState) (ctx : PyVal) (cmd qry : Option String)
    (t0 tParse tEnd : ℚ) (r : AIEngine.ProviderText)
    (hinit : st.is_initialized = true) :
    (AIEngine.generate_suggestions st ctx cmd qry t0 (.response r) tParse
        tEnd).invocationTime =
      some (max t0 (st.last_request_time + AIEngine.rate_limit_delay)) ∧
    (AIEngine.generate_suggestions st ctx cmd qry t0 (.response r) tParse
        tEnd).state.suggestion_cache = st.suggestion_cache ∧
    (∀ (cache : List (String × AIEngine.CacheEntry)) (hsh : String)
        (e : AIEngine.CacheEntry) (tNow : ℚ),
      cache.lookup hsh = some e →
      tNow - e.timestamp < AIEngine.CACHE_TTL →
      AIEngine.get_cached_suggestion cache tNow hsh = some e.suggestion) := by
  refine ⟨?_, ?_, ?_⟩
  · simp [AIEngine.generate_suggestions, hinit]
  · simp [AIEngine.generate_suggestions, hinit]
  · intro cache hsh e tNow hl ht
    simp [AIEngine.get_cached_suggestion, AIEngine.ENABLE_CACHING, hl, ht]

/-- Witness for `generate_bypasses_cache`: a concrete warm cache is served
by `get_cached_suggestion` within the TTL, while a concrete initialized
`generate_suggestions` call still invokes the provider. -/
theorem generate_bypasses_cache_witness :
    AIEngine.get_cached_suggestion
        [("h", ⟨0, PyVal.str "cached"⟩)] 10 "h" = some (PyVal.str "cached") ∧
    (AIEngine.generate_suggestions ⟨true, [], 0⟩ (PyVal.dict []) Option.none
        Option.none 10 (.response ⟨"hello", Except.error "e"⟩) 10
        10).invocationTime =
      some (max 10 ((0 : ℚ) + AIEngine.rate_limit_delay)) :=
  ⟨(generate_bypasses_cache ⟨true, [], 0⟩ (PyVal.dict []) Option.none
      Option.none 10 10 10 ⟨"hello", Except.error "e"⟩ rfl).2.2
      [("h", ⟨0, PyVal.str "cached"⟩)] "h" ⟨0, PyVal.str "cached"⟩ 10 rfl
      (by norm_num [AIEngine.CACHE_TTL]),
   (generate_bypasses_cache ⟨true, [], 0⟩ (PyVal.dict []) Option.none
      Option.none 10 10 10 ⟨"hello", Except.error "e"⟩ rfl).1⟩

/-- C2 counterexample: two `suggest_fixes` calls half a second apart both
invoke the provider immediately — `suggest_fixes` neither consults nor
updates the rate-limiter state, so two provider invocations occur
0.5 s < 1.0 s apart. -/
theorem suggest_fixes_bypasses_rate_gate :
    (AIEngine.suggest_fixes ⟨true, [], 0⟩ 0
        (.ok ⟨"x", Except.error "e"⟩)).invocationTime = some 0 ∧
    (AIEngine.suggest_fixes
        (AIEngine.suggest_fixes ⟨true, [], 0⟩ 0
          (.ok ⟨"x", Except.error "e"⟩)).state (1/2)
        (.ok ⟨"x", Except.error "e"⟩)).invocationTime = some (1/2) ∧
    (1/2 : ℚ) - 0 < AIEngine.rate_limit_delay := by
  refine ⟨?_, ?_, by norm_num [AIEngine.rate_limit_delay]⟩ <;>
    simp [AIEngine.suggest_fixes, AIEngine.json_pipeline]

/-- C2 (amended): the minimum-interval gate lives only in
`generate_suggestions`: two successive `generate_suggestions` provider
invocations are at least `rate_limit_delay` apart (given a monotone clock:
the first call completes no earlier than its invocation), whereas
`suggest_fixes`, `analyze_code_quality` and `generate_documentation` invoke
the provider at their entry time without consulting or updating
`last_request_time`. -/
theorem rate_gate_only_in_generate_suggestions :
    (∀ (st : AIEngine.EngineState) (ctx ctx' : PyVal)
        (cmd qry cmd' qry' : Option String) (t0 tParse tEnd t0' tP' tE' : ℚ)
        (r : AIEngine.ProviderText) (call' : AIEngine.CallPhase)
        (u1 u2 : ℚ),
      st.is_initialized = true →
      max t0 (st.last_request_time + AIEngine.rate_limit_delay) ≤ tEnd →
      (AIEngine.generate_suggestions st ctx cmd qry t0 (.response r) tParse
          tEnd).invocationTime = some u1 →
      (AIEngine.generate_suggestions
          (AIEngine.generate_suggestions st ctx cmd qry t0 (.response r)
            tParse tEnd).state ctx' cmd' qry' t0' call' tP'
          tE').invocationTime = some u2 →
      u1 + AIEngine.rate_limit_delay ≤ u2) ∧
    (∀ st t0 call, st.is_initialized = true →
      (AIEngine.suggest_fixes st t0 call).invocationTime = some t0 ∧
      (AIEngine.suggest_fixes st t0 call).state = st) ∧
    (∀ st t0 call, st.is_initialized = true →
      (AIEngine.analyze_code_quality st t0 call).invocationTime = some t0 ∧
      (AIEngine.analyze_code_quality st t0 call).state = st) ∧
    (∀ st t0 call, st.is_initialized = true →
      (AIEngine.generate_documentation st t0 call).invocationTime = some t0 ∧
      (AIEngine.generate_documentation st t0 call).state = st) := by
  have hplain : ∀ st t0 call, st.is_initialized = true →
      (AIEngine.json_pipeline st t0 call).invocationTime = some t0 ∧
      (AIEngine.json_pipeline st t0 call).state = st := by
    intro st t0 call hinit
    cases call with
    | exn m => simp [AIEngine.json_pipeline, hinit]
    | ok r =>
      cases hl : r.loads with
      | ok v => simp [AIEngine.json_pipeline, hinit, hl]
      | error e => simp [AIEngine.json_pipeline, hinit, hl]
  refine ⟨?_, hplain, hplain, hplain⟩
  intro st ctx ctx' cmd qry cmd' qry' t0 tParse tEnd t0' tP' tE' r call'
    u1 u2 hinit hmono h1 h2
  simp only [AIEngine.generate_suggestions, hinit, Bool.not_true,
    Bool.false_eq_true, if_false, Option.some.injEq] at h1
  cases call' with
  | promptError m =>
    simp [AIEngine.generate_suggestions, hinit] at h2
  | providerError m =>
    simp only [AIEngine.generate_suggestions, hinit, Bool.not_true,
      Bool.false_eq_true, if_false, Option.some.injEq] at h2
    have hu1 : u1 ≤ tEnd := h1 ▸ hmono
    have hu2 : tEnd + AIEngine.rate_limit_delay ≤ u2 :=
      h2 ▸ le_max_right _ _
    linarith
  | response r' =>
    simp only [AIEngine.generate_suggestions, hinit, Bool.not_true,
      Bool.false_eq_true, if_false, Option.some.injEq] at h2
    have hu1 : u1 ≤ tEnd := h1 ▸ hmono
    have hu2 : tEnd + AIEngine.rate_limit_delay ≤ u2 :=
      h2 ▸ le_max_right _ _
    linarith

/-- Witness for `rate_gate_only_in_generate_suggestions`: both the spacing
part and the no-gating part at concrete inputs. -/
theorem rate_gate_only_in_generate_suggestions_witness :
    ((10 : ℚ) + AIEngine.rate_limit_delay ≤ 12) ∧
    (AIEngine.suggest_fixes ⟨true, [], 5⟩ 7 (.exn "boom")).invocationTime =
      some 7 ∧
    (AIEngine.suggest_fixes ⟨true, [], 5⟩ 7 (.exn "boom")).state =
      ⟨true, [], 5⟩ :=
  ⟨rate_gate_only_in_generate_suggestions.1 ⟨true, [], 0⟩ (PyVal.dict [])
      (PyVal.dict []) Option.none Option.none Option.none Option.none
      10 10 10 12 11 11 ⟨"hello", Except.error "e"⟩
      (.response ⟨"hello", Except.error "e"⟩) 10 12 rfl
      (by norm_num [AIEngine.rate_limit_delay, max_def])
      (by norm_num [AIEngine.generate_suggestions,
        AIEngine.rate_limit_delay, max_def])
      (by norm_num [AIEngine.generate_suggestions,
        AIEngine.rate_limit_delay, max_def]),
   (rate_gate_only_in_generate_suggestions.2.1 ⟨true, [], 5⟩ 7
      (.exn "boom") rfl).1,
   (rate_gate_only_in_generate_suggestions.2.1 ⟨true, [], 5⟩ 7
      (.exn "boom") rfl).2⟩

/-- C3 counterexample: a first capture cycle (OCR on, Python code detected)
stores a context carrying `language = "python"`; the next cycle produces a
snapshot with no `language` key (OCR path not taken), yet after the write
the context still reports `language = "python"` — a field carried over from
the earlier snapshot, because the write is `dict.update`, a merge. -/
theorem stale_language_carried_across_writes :
    PyDict.get?
        (ScreenMonitor.get_current_context
          (ScreenMonitor.capture_and_analyze
            (ScreenMonitor.capture_and_analyze [] (some ())
              (ScreenMonitor.analyze_screen_content true 1
                (.ok "def f(x): return x"
                  ⟨true, PyVal.str ".py", PyVal.str "python",
                   [PyVal.str "def f(x): return x"]⟩
                  [] "Language: python")))
            (some ())
            (ScreenMonitor.analyze_screen_content false 2 .failed)))
        "language" = some (PyVal.str "python") ∧
    PyDict.get? (ScreenMonitor.analyze_screen_content false 2 .failed)
        "language" = Option.none :=
  ⟨rfl, rfl⟩

/-- C3 (amended): a context write merges the new analysis into the stored
context: a read after the write returns the new analysis value for every
key the analysis contains, and the previously stored value for keys it does
not — so the snapshot matches the new analysis exactly only when that
analysis carries every stored key (as in a fully successful OCR-enabled
cycle). -/
theorem context_write_merges (store analysis : PyDict) (k : String)
    (hnodup : (analysis.map Prod.fst).Nodup) :
    PyDict.get?
        (ScreenMonitor.get_current_context
          (ScreenMonitor.capture_and_analyze store (some ()) analysis)) k =
      match PyDict.get? analysis k with
      | some v => some v
      | Option.none => PyDict.get? store k :=
  PyDict.get?_update store analysis k hnodup

/-- Witness for `context_write_merges`: the carried-over key on concrete
dicts. -/
theorem context_write_merges_witness :
    PyDict.get?
        (ScreenMonitor.get_current_context
          (ScreenMonitor.capture_and_analyze
            [("language", PyVal.str "python")] (some ())
            [("timestamp", PyVal.num 2)])) "language" =
      match PyDict.get? [("timestamp", PyVal.num 2)] "language" with
      | some v => some v
      | Option.none =>
          PyDict.get? [("language", PyVal.str "python")] "language" :=
  context_write_merges [("language", PyVal.str "python")]
    [("timestamp", PyVal.num 2)] "language" (by simp)

/-- C4 counterexample: `suggest_fixes` hands a malformed (non-JSON)
provider response to `json.loads` unguarded; the `JSONDecodeError` is
caught by the generic handler and surfaced to the caller as an error dict —
not downgraded to the fallback batch. -/
theorem suggest_fixes_surfaces_parse_error :
    (AIEngine.suggest_fixes ⟨true, [], 0⟩ 0
        (.ok ⟨"Add a missing colon",
          Except.error "Expecting value: line 1 column 1 (char 0)"⟩)).ret =
      AIEngine.errorDict "Expecting value: line 1 column 1 (char 0)" :=
  rfl

/-- C4 (amended): only `generate_suggestions` downgrades a response that
fails JSON decoding to the single-suggestion fallback batch;
`suggest_fixes`, `analyze_code_quality` and `generate_documentation`
surface the decode failure to the caller as an `{"error": str(e)}` dict. -/
theorem parse_failure_policy_per_operation :
    (∀ (st : AIEngine.EngineState) (ctx : PyVal) (cmd qry : Option String)
        (t0 tParse tEnd : ℚ) (text e : String),
      st.is_initialized = true →
      (AIEngine.generate_suggestions st ctx cmd qry t0
          (.response ⟨text, Except.error e⟩) tParse tEnd).ret =
        AIEngine.format_text_response tParse text ctx) ∧
    (∀ (st : AIEngine.EngineState) (t0 : ℚ) (text e : String),
      st.is_initialized = true →
      (AIEngine.suggest_fixes st t0 (.ok ⟨text, Except.error e⟩)).ret =
        AIEngine.errorDict e) ∧
    (∀ (st : AIEngine.EngineState) (t0 : ℚ) (text e : String),
      st.is_initialized = true →
      (AIEngine.analyze_code_quality st t0
          (.ok ⟨text, Except.error e⟩)).ret = AIEngine.errorDict e) ∧
    (∀ (st : AIEngine.EngineState) (t0 : ℚ) (text e : String),
      st.is_initialized = true →
      (AIEngine.generate_documentation st t0
          (.ok ⟨text, Except.error e⟩)).ret = AIEngine.errorDict e) := by
  have hplain : ∀ (st : AIEngine.EngineState) (t0 : ℚ) (text e : String),
      st.is_initialized = true →
      (AIEngine.json_pipeline st t0 (.ok ⟨text, Except.error e⟩)).ret =
        AIEngine.errorDict e := by
    intro st t0 text e hinit
    simp [AIEngine.json_pipeline, hinit]
  refine ⟨?_, hplain, hplain, hplain⟩
  intro st ctx cmd qry t0 tParse tEnd text e hinit
  by_cases hb : AIEngine.strippedStartsWithBrace text
  · simp [AIEngine.generate_suggestions, hinit, AIEngine.parse_response, hb]
  · simp [AIEngine.generate_suggestions, hinit, AIEngine.parse_response, hb]

/-- Witness for `parse_failure_policy_per_operation`: a concrete
undecodable response through `suggest_fixes` and through
`generate_suggestions`. -/
theorem parse_failure_policy_per_operation_witness :
    (AIEngine.suggest_fixes ⟨true, [], 0⟩ 0
        (.ok ⟨"oops", Except.error "bad json"⟩)).ret =
      AIEngine.errorDict "bad json" ∧
    (AIEngine.generate_suggestions ⟨true, [], 0⟩ PyVal.none Option.none
        Option.none 1 (.response ⟨"oops", Except.error "bad json"⟩) 2
        3).ret = AIEngine.format_text_response 2 "oops" PyVal.none :=
  ⟨parse_failure_policy_per_operation.2.1 ⟨true, [], 0⟩ 0 "oops" "bad json"
      rfl,
   parse_failure_policy_per_operation.1 ⟨true, [], 0⟩ PyVal.none Option.none
      Option.none 1 2 3 "oops" "bad json" rfl⟩

/-- C6 counterexample: a candidate suggestion whose title is the EMPTY
string survives validation — the source checks only `"title" in
suggestion`, never that the title is non-empty. -/
theorem empty_title_survives_validation :
    AIEngine.format_suggestions 0
        (PyVal.dict
          [("suggestions", PyVal.list [PyVal.dict [("title", PyVal.str "")]])])
        PyVal.none =
      Except.ok (PyVal.dict
        [("timestamp", .num 0), ("context", PyVal.none),
         ("suggestions", .list
           [.dict [("type", .str "general"), ("title", .str ""),
                   ("description", .str ""), ("code", .str ""),
                   ("priority", .str "medium")]]),
         ("summary", .str ""), ("confidence", .num (1/2)),
         ("source", .str "ai_engine")]) :=
  rfl

/-- C6 (amended): validation keeps exactly the candidates that are dicts
containing a "title" key — the title value may be empty; the survivors get
`type` defaulted to "general" and `priority` to "medium", keep their
original order (the filter is order-preserving), and every non-dict
candidate or dict without a "title" key is dropped. -/
theorem validation_requires_title_key (tNow : ℚ) (p : PyDict) (ctx : PyVal)
    (items : List PyVal)
    (h : PyDict.getD p "suggestions" (.list []) = PyVal.list items) :
    AIEngine.format_suggestions tNow (.dict p) ctx =
      Except.ok (.dict
        [("timestamp", .num tNow), ("context", ctx),
         ("suggestions", .list (items.filterMap AIEngine.validate_one)),
         ("summary", PyDict.getD p "summary" (.str "")),
         ("confidence", PyDict.getD p "confidence" (.num (1/2))),
         ("source", .str "ai_engine")]) ∧
    (∀ sd : PyDict, PyDict.hasKey sd "title" = false →
      AIEngine.validate_one (.dict sd) = Option.none) ∧
    (∀ sd : PyDict, PyDict.hasKey sd "title" = true →
      AIEngine.validate_one (.dict sd) =
        some (.dict
          [("type", PyDict.getD sd "type" (.str "general")),
           ("title", PyDict.getD sd "title" (.str "")),
           ("description", PyDict.getD sd "description" (.str "")),
           ("code", PyDict.getD sd "code" (.str "")),
           ("priority", PyDict.getD sd "priority" (.str "medium"))])) ∧
    (∀ s, AIEngine.validate_one (.str s) = Option.none) ∧
    (∀ q, AIEngine.validate_one (.num q) = Option.none) := by
  refine ⟨?_, ?_, ?_, fun s => rfl, fun q => rfl⟩
  · simp [AIEngine.format_suggestions, h, AIEngine.pyIter]
  · intro sd hsd
    simp [AIEngine.validate_one, hsd]
  · intro sd hsd
    simp [AIEngine.validate_one, hsd]

/-- Witness for `validation_requires_title_key` on a concrete parsed
response. -/
theorem validation_requires_title_key_witness :
    AIEngine.format_suggestions 0
        (PyVal.dict [("suggestions", PyVal.list [])]) PyVal.none =
      Except.ok (PyVal.dict
        [("timestamp", .num 0), ("context", PyVal.none),
         ("suggestions", .list (List.filterMap AIEngine.validate_one [])),
         ("summary",
           PyDict.getD [("suggestions", PyVal.list [])] "summary" (.str "")),
         ("confidence",
           PyDict.getD [("suggestions", PyVal.list [])] "confidence"
             (.num (1/2))),
         ("source", .str "ai_engine")]) ∧
    AIEngine.validate_one (PyVal.dict []) = Option.none :=
  ⟨(validation_requires_title_key 0 [("suggestions", PyVal.list [])]
      PyVal.none [] rfl).1,
   (validation_requires_title_key 0 [("suggestions", PyVal.list [])]
      PyVal.none [] rfl).2.1 [] rfl⟩

/-- C9 counterexample: from the state (inactive, no suggestions, hidden),
`_toggle_overlay` does NOT flip the overlay visibility — `_show_suggestions`
bails out when inactive, so the overlay stays hidden and the state is
completely unchanged. -/
theorem toggle_does_not_flip_when_hidden_inactive :
    Copilot.toggle_overlay ⟨false, [], false⟩ = (⟨false, [], false⟩, 0) :=
  rfl

/-- C9 (amended): `_toggle_overlay` never changes `is_active` (or
`last_suggestions`) in any state; it always hides a visible overlay, but
shows a hidden one only when the copilot is active AND has last-known
suggestions — otherwise it is a no-op. Activate from an inactive state sets
both `is_active` and visibility; deactivate from an active state clears
both. -/
theorem toggle_touches_only_visibility :
    (∀ s : Copilot.CopState,
      (Copilot.toggle_overlay s).1.is_active = s.is_active ∧
      (Copilot.toggle_overlay s).1.last_suggestions = s.last_suggestions) ∧
    (∀ s : Copilot.CopState, s.overlay_visible = true →
      (Copilot.toggle_overlay s).1.overlay_visible = false) ∧
    (∀ s : Copilot.CopState, s.overlay_visible = false → s.is_active = true →
      s.last_suggestions ≠ [] →
      (Copilot.toggle_overlay s).1.overlay_visible = true) ∧
    (∀ s : Copilot.CopState, s.overlay_visible = false →
      (s.is_active = false ∨ s.last_suggestions = []) →
      Copilot.toggle_overlay s = (s, 0)) ∧
    (∀ s : Copilot.CopState, s.is_active = false →
      (Copilot.activate_copilot s).1.is_active = true ∧
      (Copilot.activate_copilot s).1.overlay_visible = true) ∧
    (∀ s : Copilot.CopState, s.is_active = true →
      Copilot.deactivate_copilot s =
        { s with is_active := false, overlay_visible := false }) := by
  refine ⟨?_, ?_, ?_, ?_, ?_, ?_⟩
  · rintro ⟨a, ls, v⟩
    cases a <;> cases v <;> cases ls <;>
      simp [Copilot.toggle_overlay, Copilot.show_suggestions, PyDict.getD,
        PyDict.get?, pyTruthy]
  · rintro ⟨a, ls, v⟩ hv
    cases hv
    simp [Copilot.toggle_overlay]
  · rintro ⟨a, ls, v⟩ hv ha hls
    cases hv; cases ha
    cases ls with
    | nil => exact absurd rfl hls
    | cons x xs =>
      simp [Copilot.toggle_overlay, Copilot.show_suggestions, PyDict.getD,
        PyDict.get?, pyTruthy]
  · rintro ⟨a, ls, v⟩ hv hcase
    cases hv
    rcases hcase with ha | hls
    · cases ha
      simp [Copilot.toggle_overlay, Copilot.show_suggestions]
    · cases hls
      cases a <;>
        simp [Copilot.toggle_overlay, Copilot.show_suggestions, PyDict.getD,
          PyDict.get?, pyTruthy]
  · rintro ⟨a, ls, v⟩ ha
    cases ha
    cases ls with
    | nil =>
      exact ⟨rfl, rfl⟩
    | cons x xs =>
      exact ⟨rfl, rfl⟩
  · rintro ⟨a, ls, v⟩ ha
    cases ha
    simp [Copilot.deactivate_copilot]

/-- Witness for `toggle_touches_only_visibility` at concrete states. -/
theorem toggle_touches_only_visibility_witness :
    (Copilot.toggle_overlay ⟨true, [PyVal.str "s"], true⟩).1.is_active =
      true ∧
    (Copilot.toggle_overlay ⟨true, [PyVal.str "s"], true⟩).1.overlay_visible =
      false ∧
    (Copilot.toggle_overlay
        ⟨true, [PyVal.str "s"], false⟩).1.overlay_visible = true ∧
    Copilot.deactivate_copilot ⟨true, [], true⟩ = ⟨false, [], false⟩ :=
  ⟨(toggle_touches_only_visibility.1 ⟨true, [PyVal.str "s"], true⟩).1,
   toggle_touches_only_visibility.2.1 ⟨true, [PyVal.str "s"], true⟩ rfl,
   toggle_touches_only_visibility.2.2.1 ⟨true, [PyVal.str "s"], false⟩ rfl
     rfl (by simp),
   toggle_touches_only_visibility.2.2.2.2.2 ⟨true, [], true⟩ rfl⟩

/-- C10 counterexample: the provider answers with valid JSON whose
"suggestions" value is not iterable (`5`); the `TypeError` raised inside
`_format_suggestions` is caught inside `_parse_response`, so
`generate_suggestions` returns an error dict AND still reaches line 58:
`last_request_time` advances from 0 to 11 — a failed call that does advance
the rate-limiter clock. -/
theorem parse_error_advances_rate_clock :
    (AIEngine.generate_suggestions ⟨true, [], 0⟩ PyVal.none Option.none
        Option.none 10
        (.response ⟨"\x7b\"suggestions\": 5\x7d",
          Except.ok (PyVal.dict [("suggestions", PyVal.num 5)])⟩) 10
        11).ret = AIEngine.errorDict "Failed to parse AI response" ∧
    (AIEngine.generate_suggestions ⟨true, [], 0⟩ PyVal.none Option.none
        Option.none 10
        (.response ⟨"\x7b\"suggestions\": 5\x7d",
          Except.ok (PyVal.dict [("suggestions", PyVal.num 5)])⟩) 10
        11).state.last_request_time = 11 ∧
    ((11 : ℚ) ≠ 0) :=
  ⟨rfl, rfl, by norm_num⟩

/-- C10 (amended): an exception that escapes to `generate_suggestions`'s
own handler — from prompt building or the provider call — yields an error
dict with `last_request_time` unchanged (and, for a prompt-building
failure, no provider invocation); but a parse failure handled inside
`_parse_response` returns an error dict while the completed provider
round-trip still advances `last_request_time` to the post-call clock
reading. The suggestion cache is untouched on every path. -/
theorem generate_error_paths_state_effects :
    (∀ (st : AIEngine.EngineState) (ctx : PyVal) (cmd qry : Option String)
        (t0 tParse tEnd : ℚ) (m : String),
      st.is_initialized = true →
      AIEngine.generate_suggestions st ctx cmd qry t0 (.promptError m)
          tParse tEnd = ⟨AIEngine.errorDict m, st, Option.none⟩) ∧
    (∀ (st : AIEngine.EngineState) (ctx : PyVal) (cmd qry : Option String)
        (t0 tParse tEnd : ℚ) (m : String),
      st.is_initialized = true →
      AIEngine.generate_suggestions st ctx cmd qry t0 (.providerError m)
          tParse tEnd =
        ⟨AIEngine.errorDict m, st,
         some (max t0 (st.last_request_time + AIEngine.rate_limit_delay))⟩) ∧
    (∀ (st : AIEngine.EngineState) (ctx : PyVal) (cmd qry : Option String)
        (t0 tParse tEnd : ℚ) (r : AIEngine.ProviderText),
      st.is_initialized = true →
      (AIEngine.generate_suggestions st ctx cmd qry t0 (.response r) tParse
          tEnd).state.last_request_time = tEnd ∧
      (AIEngine.generate_suggestions st ctx cmd qry t0 (.response r) tParse
          tEnd).state.suggestion_cache = st.suggestion_cache) := by
  refine ⟨?_, ?_, ?_⟩ <;> intro st ctx cmd qry t0 tParse tEnd x hinit <;>
    simp [AIEngine.generate_suggestions, hinit]

/-- Witness for `generate_error_paths_state_effects` at concrete inputs. -/
theorem generate_error_paths_state_effects_witness :
    AIEngine.generate_suggestions ⟨true, [], 0⟩ PyVal.none Option.none
        Option.none 1 (.promptError "boom") 2 3 =
      ⟨AIEngine.errorDict "boom", ⟨true, [], 0⟩, Option.none⟩ ∧
    (AIEngine.generate_suggestions ⟨true, [], 0⟩ PyVal.none Option.none
        Option.none 1 (.response ⟨"hi", Except.error "e"⟩) 2
        3).state.last_request_time = 3 :=
  ⟨generate_error_paths_state_effects.1 ⟨true, [], 0⟩ PyVal.none Option.none
      Option.none 1 2 3 "boom" rfl,
   (generate_error_paths_state_effects.2.2 ⟨true, [], 0⟩ PyVal.none
      Option.none Option.none 1 2 3 ⟨"hi", Except.error "e"⟩ rfl).1⟩
